import Mathlib

/-!
Shallow embedding of `src/main.py` (Friday GEO API): a single FastAPI service
with one POST endpoint `analyze`, a best-effort scraper `get_content`
(Firecrawl primary, raw `requests.get` fallback), and a Gemini call whose
text is parsed with `json.loads`.

External collaborators (the Firecrawl SDK, the `requests` library, the
`google.genai` client, and the Python `json.loads` routine) are modelled as oracle
fields of an `Externals` structure: each is a function that either returns a
value (`Except.ok`) or raises an exception (`Except.error`, carrying the
message string of the exception).  Environment variables are `Option String`
fields.  Python string slicing `s[:n]` slices by code point, which matches
`List Char` take; Python `or` on strings returns the second operand exactly
when the first is empty; Python truthiness of `os.getenv` results is
"not None and not empty".
-/

namespace FridayGeo

/-- JSON values, the result type of `json.loads` on the Gemini response text
(numbers restricted to integers; no claim depends on non-integer numbers). -/
inductive Json where
  | null : Json
  | bool : Bool → Json
  | num : Int → Json
  | str : String → Json
  | arr : List Json → Json
  | obj : List (String × Json) → Json

/-- The pydantic request model `AnalyzeRequest` of `src/main.py` lines 28-31. -/
structure AnalyzeRequest where
  url : String
  competitors : String
  question : String

/-- The value returned by `fc.scrape(url)`: a dict-like object with an
optional `markdown` entry, plus its Python `str(...)` rendering. -/
structure ScrapeResult where
  markdown : Option String
  strRepr : String

/-- A `fastapi.HTTPException` as it reaches the caller: status code and the
`detail` field of the error body. -/
structure HTTPErrorResponse where
  status_code : Nat
  detail : String

/-- A Python exception in flight inside the handler: either a
`fastapi.HTTPException` (with status code and detail) or any other
exception carrying its message. -/
inductive PyExn where
  | http : Nat → String → PyExn
  | other : String → PyExn

/-- Python `str(e)`.  For `fastapi.HTTPException`, starlette defines
`__str__` as `f"{self.status_code}: {self.detail}"`; for a generic
exception we take its message. -/
def PyExn.toStr : PyExn → String
  | .http s d => toString s ++ ": " ++ d
  | .other m => m

/-- Python truthiness of an `os.getenv` result: `None` and `""` are falsy. -/
def pyTruthy : Option String → Bool
  | none => false
  | some s => if s = "" then false else true

/-- Python `a or b` on strings: `b` exactly when `a` is empty. -/
def pyOr (a b : String) : String := if a = "" then b else a

/-- Python slicing `s[:n]` (by code point). -/
def pyTake (s : String) (n : Nat) : String := ⟨s.data.take n⟩

/-- Environment variables and external services used by `src/main.py`.
`scrape`, `httpGet`, `generate` and `jsonLoads` model, respectively,
`fc.scrape(url)`, `requests.get(url, ...).text`,
`client.models.generate_content(...).text` and `json.loads(text)`;
an `Except.error` value is the message of the exception that call raised. -/
structure Externals where
  firecrawl_key : Option String
  gemini_key : Option String
  scrape : String → Except String ScrapeResult
  httpGet : String → Except String String
  generate : String → String → Json → String → Except String String
  jsonLoads : String → Except String Json

/-- First `try` block of `get_content` (lines 40-48): when the Firecrawl key
is truthy, attempt the scrape and build the markdown field of the result
(defaulting to empty) or, when that is empty, the str rendering of the result; `Except.error` is an exception raised inside the block (import,
construction or scrape); `.ok none` means the block fell through without
returning (no key configured). -/
def firecrawlAttempt (x : Externals) (url : String) : Except PyExn (Option String) :=
  if pyTruthy x.firecrawl_key then
    match x.scrape url with
    | .ok r => .ok (some (pyOr (r.markdown.getD "") r.strRepr))
    | .error e => .error (.other e)
  else .ok none

/-- Second `try` block of `get_content` (lines 50-52): raw fetch, truncated
to 8000 characters; `Except.error` is an exception from `requests.get`. -/
def fallbackFetch (x : Externals) (url : String) : Except PyExn String :=
  match x.httpGet url with
  | .ok text => .ok (pyTake text 8000)
  | .error e => .error (.other e)

/-- `get_content` of `src/main.py` lines 38-54.  The first `except Exception`
logs and falls through to the fallback; the final bare `except` returns the
sentinel.  No path lets an exception escape, so the result is a plain
string. -/
def get_content (x : Externals) (url : String) : String :=
  match firecrawlAttempt x url with
  | .ok (some s) => s
  | _ =>
    match fallbackFetch x url with
    | .ok s => s
    | .error _ => "Could not retrieve site content."

/-- `get_content` viewed at the call boundary of `analyze`: the returned
string paired with the list of URLs this invocation fetched content for
(one call, one URL). -/
def get_contentT (x : Externals) (url : String) : String × List String :=
  (get_content x url, [url])

/-- The system instruction of line 103. -/
def sys_instr : String :=
  "You are Friday, a GEO specialist. Analyze the content and return findings in the requested JSON schema."

/-- The `response_schema` dict of lines 74-101, verbatim as a JSON value. -/
def response_schema : Json :=
  .obj [("type", .str "OBJECT"),
        ("properties", .obj [
          ("answer", .obj [("type", .str "STRING")]),
          ("entities", .obj [("type", .str "ARRAY"),
                             ("items", .obj [("type", .str "STRING")])]),
          ("comparison", .obj [("type", .str "ARRAY"),
            ("items", .obj [("type", .str "OBJECT"),
              ("properties", .obj [
                ("factor", .obj [("type", .str "STRING")]),
                ("you", .obj [("type", .str "STRING")]),
                ("competitor", .obj [("type", .str "STRING")])])])]),
          ("roadmap", .obj [("type", .str "ARRAY"),
            ("items", .obj [("type", .str "OBJECT"),
              ("properties", .obj [
                ("title", .obj [("type", .str "STRING")]),
                ("desc", .obj [("type", .str "STRING")])])])])])]

/-- The f-string `contents` argument of line 108: question, target URL,
competitors string (verbatim, unparsed) and the first 10000 characters of
the acquired content. -/
def buildContents (req : AnalyzeRequest) (content : String) : String :=
  "User Query: " ++ req.question ++ "\nTarget: " ++ req.url ++
    "\nCompetitors: " ++ req.competitors ++ "\nContent: " ++ pyTake content 10000

/-- Body of the `try` block of `analyze` (lines 58-117), paired with the
list of URLs passed to `get_content`.  Mirrors the source order: the scrape
at line 61 happens before the GEMINI_API_KEY check at lines 62-64; then the
Gemini call, then `json.loads` on its text. -/
def analyzeTry (x : Externals) (req : AnalyzeRequest) : Except PyExn Json × List String :=
  let (content, calls) := get_contentT x req.url
  if pyTruthy x.gemini_key then
    match x.generate "gemini-1.5-flash" sys_instr response_schema (buildContents req content) with
    | .error m => (.error (.other m), calls)
    | .ok text =>
      match x.jsonLoads text with
      | .error m => (.error (.other m), calls)
      | .ok v => (.ok v, calls)
  else
    (.error (.http 500 "GEMINI_API_KEY missing."), calls)

/-- The `analyze` handler (lines 56-121): the `try` body wrapped by
`except Exception as e: raise HTTPException(status_code=500, detail=str(e))`,
so every exception — the missing-key `HTTPException` included — reaches the
caller as status 500 with `detail = str(e)`.  The second component is the
list of URLs `get_content` was invoked on. -/
def analyze (x : Externals) (req : AnalyzeRequest) : Except HTTPErrorResponse Json × List String :=
  match analyzeTry x req with
  | (.ok v, calls) => (.ok v, calls)
  | (.error e, calls) => (.error ⟨500, e.toStr⟩, calls)

/-- Key lookup in a JSON object (`none` on non-objects). -/
def Json.getKey (v : Json) (k : String) : Option Json :=
  match v with
  | .obj kvs => kvs.lookup k
  | _ => none

/-- The response shape the AnalysisResult contract of the spec requires: an
object carrying at least the keys `answer`, `entities`, `comparison`,
`roadmap`. -/
def hasAnalysisKeys (v : Json) : Bool :=
  (v.getKey "answer").isSome && (v.getKey "entities").isSome &&
    (v.getKey "comparison").isSome && (v.getKey "roadmap").isSome

/-- Split a character list on commas (each comma separates two fields). -/
def splitOnComma : List Char → List (List Char)
  | [] => [[]]
  | c :: rest =>
    let r := splitOnComma rest
    if c = ',' then [] :: r
    else
      match r with
      | [] => [[c]]
      | h :: t => (c :: h) :: t

/-- Strip leading and trailing whitespace from a character list. -/
def trimL (s : List Char) : List Char :=
  ((s.dropWhile Char.isWhitespace).reverse.dropWhile Char.isWhitespace).reverse

/-- Whether the first list is an initial segment of the second. -/
def startsWithL : List Char → List Char → Bool
  | [], _ => true
  | _ :: _, [] => false
  | p :: ps, c :: cs => p = c && startsWithL ps cs

/-- Modelled from the spec (section 4.2, absent from `src/main.py`): parse
`competitors` by splitting on commas, trimming whitespace, dropping empty
entries and capping at 2.  Stated only to compare the fan-out claimed
by the spec against the actual behaviour of the code. -/
def specParseCompetitors (competitors : String) : List String :=
  ((((splitOnComma competitors.data).map trimL).map
      (fun l => (⟨l⟩ : String))).filter (fun s => s ≠ "")).take 2

/-- Modelled from the spec (section 4.1 step 1, absent from `src/main.py`):
strip all whitespace from the URL and prepend `https://` when no scheme is
present.  Stated only to compare the normalisation claimed by the spec
against the actual behaviour of the code. -/
def specNormalizeUrl (url : String) : String :=
  let stripped : List Char := url.data.filter (fun c => !c.isWhitespace)
  if startsWithL "http://".data stripped || startsWithL "https://".data stripped
  then ⟨stripped⟩
  else "https://" ++ ⟨stripped⟩


/-! ## Helper lemmas -/

theorem pyTake_length_le (s : String) (n : Nat) : (pyTake s n).length ≤ n := by
  show (s.data.take n).length ≤ n
  simp [List.length_take]

theorem pyTake_pyTake (s : String) (n : Nat) : pyTake (pyTake s n) n = pyTake s n := by
  simp [pyTake, List.take_take]

theorem analyzeTry_snd (x : Externals) (req : AnalyzeRequest) :
    (analyzeTry x req).2 = [req.url] := by
  simp only [analyzeTry, get_contentT]
  split
  · split
    · rfl
    · split <;> rfl
  · rfl

theorem analyze_snd (x : Externals) (req : AnalyzeRequest) :
    (analyze x req).2 = [req.url] := by
  have h := analyzeTry_snd x req
  unfold analyze
  rcases he : analyzeTry x req with ⟨r, calls⟩
  rw [he] at h
  cases r <;> simpa using h

theorem analyzeTry_missing_key (x : Externals) (req : AnalyzeRequest)
    (hk : pyTruthy x.gemini_key = false) :
    analyzeTry x req = (.error (.http 500 "GEMINI_API_KEY missing."), [req.url]) := by
  simp [analyzeTry, get_contentT, hk]

theorem analyze_missing_key (x : Externals) (req : AnalyzeRequest)
    (hk : pyTruthy x.gemini_key = false) :
    analyze x req = (.error ⟨500, "500: GEMINI_API_KEY missing."⟩, [req.url]) := by
  rw [analyze, analyzeTry_missing_key x req hk]
  rfl

theorem analyzeTry_success (x : Externals) (req : AnalyzeRequest) (t : String) (v : Json)
    (hk : pyTruthy x.gemini_key = true)
    (hg : x.generate "gemini-1.5-flash" sys_instr response_schema
        (buildContents req (get_content x req.url)) = .ok t)
    (hj : x.jsonLoads t = .ok v) :
    analyzeTry x req = (.ok v, [req.url]) := by
  simp [analyzeTry, get_contentT, hk, hg, hj]

theorem analyzeTry_parse_fail (x : Externals) (req : AnalyzeRequest) (t m : String)
    (hk : pyTruthy x.gemini_key = true)
    (hg : x.generate "gemini-1.5-flash" sys_instr response_schema
        (buildContents req (get_content x req.url)) = .ok t)
    (hj : x.jsonLoads t = .error m) :
    analyzeTry x req = (.error (.other m), [req.url]) := by
  simp [analyzeTry, get_contentT, hk, hg, hj]

/-! ## Concrete instantiations used by counterexamples and witnesses -/

def echoX : Externals where
  firecrawl_key := none
  gemini_key := some "k"
  scrape := fun _ => .error "unused"
  httpGet := fun u => .ok u
  generate := fun _ _ _ _ => .error "unused"
  jsonLoads := fun _ => .error "unused"

def fcEchoX : Externals where
  firecrawl_key := some "fk"
  gemini_key := some "k"
  scrape := fun u => .ok ⟨none, "R:" ++ u⟩
  httpGet := fun _ => .error "unused"
  generate := fun _ _ _ _ => .error "unused"
  jsonLoads := fun _ => .error "unused"

def xC1 : Externals where
  firecrawl_key := none
  gemini_key := none
  scrape := fun _ => .error "unused"
  httpGet := fun _ => .ok "page text"
  generate := fun _ _ _ _ => .error "unused"
  jsonLoads := fun _ => .error "unused"

def reqC1 : AnalyzeRequest := ⟨"https://t.example", "a.com, b.com, c.com, d.com", "q"⟩

def xC2 : Externals where
  firecrawl_key := none
  gemini_key := some "k"
  scrape := fun _ => .error "unused"
  httpGet := fun _ => .ok "page text"
  generate := fun _ _ _ _ => .error "boom"
  jsonLoads := fun _ => .error "unused"

def reqC2 : AnalyzeRequest := ⟨"https://t.example", "a.com, b.com, c.com, d.com", "q"⟩

def bigStr : String := ⟨List.replicate 16000 'a'⟩

def xC4 : Externals where
  firecrawl_key := some "fk"
  gemini_key := some "k"
  scrape := fun _ => .ok ⟨some bigStr, "strRepr"⟩
  httpGet := fun _ => .error "unused"
  generate := fun _ _ _ _ => .error "unused"
  jsonLoads := fun _ => .error "unused"

def xFail : Externals where
  firecrawl_key := some "fk"
  gemini_key := some "k"
  scrape := fun _ => .error "boom"
  httpGet := fun _ => .error "timed out"
  generate := fun _ _ _ _ => .error "unused"
  jsonLoads := fun _ => .error "unused"

def reqS : AnalyzeRequest := ⟨"example.com", "foo.com, bar.com", "How do we compare?"⟩

def vOK : Json :=
  .obj [("answer", .str "x"),
        ("entities", .arr [.str "e1"]),
        ("comparison", .arr [.obj [("factor", .str "f"), ("you", .str "y"),
                                   ("competitor", .str "c")]]),
        ("roadmap", .arr [.obj [("title", .str "t"), ("desc", .str "d")]])]

def xOK : Externals where
  firecrawl_key := none
  gemini_key := some "k"
  scrape := fun _ => .error "unused"
  httpGet := fun _ => .ok "page text"
  generate := fun _ _ _ _ => .ok "fixed json"
  jsonLoads := fun _ => .ok vOK

def xNJ : Externals where
  firecrawl_key := none
  gemini_key := some "k"
  scrape := fun _ => .error "unused"
  httpGet := fun _ => .ok "page text"
  generate := fun _ _ _ _ => .ok "not-json"
  jsonLoads := fun _ => .error "Expecting value: line 1 column 1 (char 0)"

def xArr : Externals where
  firecrawl_key := none
  gemini_key := some "k"
  scrape := fun _ => .error "unused"
  httpGet := fun _ => .ok "page text"
  generate := fun _ _ _ _ => .ok "[3]"
  jsonLoads := fun _ => .ok (.arr [.num 3])

def xC10 : Externals where
  firecrawl_key := none
  gemini_key := some ""
  scrape := fun _ => .error "unused"
  httpGet := fun _ => .ok "page text"
  generate := fun _ _ _ _ => .error "unused"
  jsonLoads := fun _ => .error "unused"

theorem bigStr_length : bigStr.length = 16000 := by
  show (List.replicate 16000 'a').length = 16000
  rw [List.length_replicate]

theorem bigStr_ne_empty : bigStr ≠ "" := by
  intro h
  have h1 : bigStr.length = 0 := by rw [h]; rfl
  rw [bigStr_length] at h1
  exact absurd h1 (by decide)

theorem get_content_xC4 : get_content xC4 "https://t.example" = bigStr := by
  rw [get_content, firecrawlAttempt]
  show (if bigStr = "" then "strRepr" else bigStr) = bigStr
  rw [if_neg bigStr_ne_empty]

/-! ## Claims -/

/-- C1 counterexample: with GEMINI_API_KEY absent, the handler does return
HTTP 500, but the scrape-call trace is `[target]`, not `[]`: `get_content`
runs once before the credential check fails. -/
theorem c1_counterexample :
    (analyze xC1 reqC1).1 = .error ⟨500, "500: GEMINI_API_KEY missing."⟩ ∧
    (analyze xC1 reqC1).2 = ["https://t.example"] ∧
    (analyze xC1 reqC1).2 ≠ ([] : List String) := by
  refine ⟨rfl, rfl, by decide⟩

/-- C1 (amended): when the generative-text credential is absent (unset or
empty), the handler returns HTTP 500 with the missing-key error, after
invoking `get_content` exactly once, on the target URL. -/
theorem missing_key_returns_500_after_one_scrape (x : Externals) (req : AnalyzeRequest)
    (hk : pyTruthy x.gemini_key = false) :
    (analyze x req).1 = .error ⟨500, "500: GEMINI_API_KEY missing."⟩ ∧
    (analyze x req).2 = [req.url] := by
  rw [analyze_missing_key x req hk]
  exact ⟨rfl, rfl⟩

theorem missing_key_returns_500_after_one_scrape_witness :
    pyTruthy xC1.gemini_key = false ∧
    ((analyze xC1 reqC1).1 = .error ⟨500, "500: GEMINI_API_KEY missing."⟩ ∧
     (analyze xC1 reqC1).2 = [reqC1.url]) :=
  ⟨rfl, missing_key_returns_500_after_one_scrape xC1 reqC1 rfl⟩

/-- C2 counterexample: for `competitors = "a.com, b.com, c.com, d.com"` the
claimed fetch list (target plus first two parsed competitors) has three
URLs, but the handler fetches only the target. -/
theorem c2_counterexample :
    (analyze xC2 reqC2).2 = ["https://t.example"] ∧
    reqC2.url :: specParseCompetitors reqC2.competitors
      = ["https://t.example", "a.com", "b.com"] ∧
    (analyze xC2 reqC2).2 ≠ reqC2.url :: specParseCompetitors reqC2.competitors := by
  refine ⟨rfl, by decide, by decide⟩

/-- C2 (amended): the handler never parses `competitors` and never fetches a
competitor URL; it invokes `get_content` exactly once, on the target URL
(the competitors string is embedded verbatim in the prompt instead). -/
theorem analyze_fetches_target_only (x : Externals) (req : AnalyzeRequest) :
    (analyze x req).2 = [req.url] :=
  analyze_snd x req

/-- C3: when the credential is present and the generative backend answers
with text that parses to a JSON object carrying the keys `answer`,
`entities`, `comparison` and `roadmap` (as the response schema of the
request instructs), the handler returns it as a success, so the 200
response body has at least those keys. -/
theorem analyze_success_has_keys (x : Externals) (req : AnalyzeRequest) (t : String) (v : Json)
    (hk : pyTruthy x.gemini_key = true)
    (hg : x.generate "gemini-1.5-flash" sys_instr response_schema
        (buildContents req (get_content x req.url)) = .ok t)
    (hj : x.jsonLoads t = .ok v)
    (hv : hasAnalysisKeys v = true) :
    ∃ w : Json, (analyze x req).1 = .ok w ∧ hasAnalysisKeys w = true := by
  refine ⟨v, ?_, hv⟩
  rw [analyze, analyzeTry_success x req t v hk hg hj]

theorem analyze_success_has_keys_witness :
    ∃ w : Json, (analyze xOK reqS).1 = .ok w ∧ hasAnalysisKeys w = true :=
  analyze_success_has_keys xOK reqS "fixed json" vOK rfl rfl rfl rfl

/-- C4 counterexample: when the primary Firecrawl path succeeds with a
16000-character markdown result, `get_content` returns all 16000
characters — above every cap in the 5000-15000 range, so no fixed cap
bounds the success paths. -/
theorem c4_counterexample :
    (get_content xC4 "https://t.example").length = 16000 ∧ 15000 < 16000 := by
  refine ⟨?_, by decide⟩
  rw [get_content_xC4]
  exact bigStr_length

/-- C4 (amended): only the fallback raw-fetch path truncates, to 8000
characters; whenever the primary Firecrawl path does not produce the
result (key not configured, or the scrape raised), the output of
`get_content` is at most 8000 characters.  The primary path returns its
text untruncated. -/
theorem get_content_fallback_bounded (x : Externals) (url : String)
    (h : ∀ s : String, firecrawlAttempt x url ≠ .ok (some s)) :
    (get_content x url).length ≤ 8000 := by
  rw [get_content]
  rcases hf : firecrawlAttempt x url with e | o
  · rw [fallbackFetch]
    rcases hg : x.httpGet url with e2 | t
    · show ("Could not retrieve site content." : String).length ≤ 8000
      decide
    · exact pyTake_length_le t 8000
  · rcases o with _ | s
    · rw [fallbackFetch]
      rcases hg : x.httpGet url with e2 | t
      · show ("Could not retrieve site content." : String).length ≤ 8000
        decide
      · exact pyTake_length_le t 8000
    · exact absurd hf (h s)

theorem get_content_fallback_bounded_witness :
    (get_content echoX "x.com").length ≤ 8000 :=
  get_content_fallback_bounded echoX "x.com"
    (fun _ h => Option.noConfusion (Except.ok.inj h))

/-- C5: `get_content` is total: every execution ends in one of its three
return statements — the primary scrape value, the truncated fallback text,
or the failure sentinel — and when both the primary attempt and the
fallback fetch raise, the result is the sentinel string, never a
propagated exception. -/
theorem get_content_absorbs_all_failures (x : Externals) (url : String) :
    ((∃ s, firecrawlAttempt x url = .ok (some s) ∧ get_content x url = s) ∨
     (∃ t, x.httpGet url = .ok t ∧ get_content x url = pyTake t 8000) ∨
     get_content x url = "Could not retrieve site content.") ∧
    (∀ e e2, firecrawlAttempt x url = .error e → fallbackFetch x url = .error e2 →
      get_content x url = "Could not retrieve site content.") := by
  constructor
  · rcases hf : firecrawlAttempt x url with e | o
    · rcases hg : x.httpGet url with e2 | t
      · right; right
        rw [get_content, hf, fallbackFetch, hg]
      · right; left
        refine ⟨t, rfl, ?_⟩
        rw [get_content, hf, fallbackFetch, hg]
    · rcases o with _ | s
      · rcases hg : x.httpGet url with e2 | t
        · right; right
          rw [get_content, hf, fallbackFetch, hg]
        · right; left
          refine ⟨t, rfl, ?_⟩
          rw [get_content, hf, fallbackFetch, hg]
      · left
        refine ⟨s, rfl, ?_⟩
        rw [get_content, hf]
  · intro e e2 hf hg
    rw [get_content, hf, fallbackFetch] at *
    rcases hh : x.httpGet url with e3 | t
    · rfl
    · rw [hh] at hg
      exact absurd hg (by simp)

theorem get_content_absorbs_all_failures_witness :
    get_content xFail "u.com" = "Could not retrieve site content." :=
  (get_content_absorbs_all_failures xFail "u.com").2
    (.other "boom") (.other "timed out") rfl rfl

/-- C6: every failure of the `analyze` pipeline reaches the caller as
status 500 with a `detail` string, and in particular when the generative
backend returns text that `json.loads` rejects, the response is 500 with
the parse-error message as `detail`. -/
theorem analyze_failures_are_500_with_detail (x : Externals) (req : AnalyzeRequest) :
    (∀ e, (analyze x req).1 = .error e → e.status_code = 500) ∧
    (∀ t m, pyTruthy x.gemini_key = true →
      x.generate "gemini-1.5-flash" sys_instr response_schema
          (buildContents req (get_content x req.url)) = .ok t →
      x.jsonLoads t = .error m →
      (analyze x req).1 = .error ⟨500, m⟩) := by
  constructor
  · intro e he
    rw [analyze] at he
    rcases ht : analyzeTry x req with ⟨r, calls⟩
    rw [ht] at he
    cases r with
    | ok v => simp at he
    | error e0 =>
      simp at he
      rw [← he]
  · intro t m hk hg hj
    rw [analyze, analyzeTry_parse_fail x req t m hk hg hj]
    rfl

theorem analyze_failures_are_500_with_detail_witness :
    (analyze xNJ reqS).1 = .error ⟨500, "Expecting value: line 1 column 1 (char 0)"⟩ :=
  (analyze_failures_are_500_with_detail xNJ reqS).2
    "not-json" "Expecting value: line 1 column 1 (char 0)" rfl rfl rfl

/-- C7 counterexample: for the input URL `" example.com"` (leading space, no
scheme) the URL that reaches the fallback fetch — revealed by an oracle
that echoes its argument — is the raw input, not the normalised
`"https://example.com"` the claim requires. -/
theorem c7_counterexample :
    get_content echoX " example.com" = " example.com" ∧
    specNormalizeUrl " example.com" = "https://example.com" ∧
    get_content echoX " example.com" ≠ specNormalizeUrl " example.com" := by
  refine ⟨rfl, by decide, by decide⟩

/-- C7 (amended): `get_content` performs no normalisation: the URL is passed
to the scraping backends exactly as received, as shown by echoing oracles
on both the fallback path and the primary path. -/
theorem get_content_no_normalization (url : String) :
    get_content echoX url = pyTake url 8000 ∧
    get_content fcEchoX url = "R:" ++ url :=
  ⟨rfl, rfl⟩

/-- C8: whatever JSON value the backend text parses to — of any shape,
object or not, conforming or not — is returned unchanged as the success
body; the handler validates nothing after `json.loads`. -/
theorem analyze_relays_parsed_json (x : Externals) (req : AnalyzeRequest) (t : String) (v : Json)
    (hk : pyTruthy x.gemini_key = true)
    (hg : x.generate "gemini-1.5-flash" sys_instr response_schema
        (buildContents req (get_content x req.url)) = .ok t)
    (hj : x.jsonLoads t = .ok v) :
    (analyze x req).1 = .ok v := by
  rw [analyze, analyzeTry_success x req t v hk hg hj]

theorem analyze_relays_parsed_json_witness :
    (analyze xArr reqS).1 = .ok (.arr [.num 3]) :=
  analyze_relays_parsed_json xArr reqS "[3]" (.arr [.num 3]) rfl rfl rfl

/-- C9: the prompt embeds at most the first 10000 characters of the acquired
content: the assembled user message depends only on `content[:10000]`, and
its length is bounded by the empty-content prompt length plus 10000. -/
theorem prompt_embeds_at_most_10000 (req : AnalyzeRequest) (content : String) :
    buildContents req content = buildContents req (pyTake content 10000) ∧
    (buildContents req content).length ≤ (buildContents req "").length + 10000 := by
  constructor
  · simp [buildContents, pyTake_pyTake]
  · have h1 : (pyTake content 10000).length ≤ 10000 := pyTake_length_le content 10000
    simp only [buildContents, String.length_append]
    have h2 : (pyTake "" 10000).length = 0 := rfl
    omega

/-- C10: the missing-credential `HTTPException` is caught by the generic
handler and re-wrapped, so the response detail is the starlette string
rendering `"500: GEMINI_API_KEY missing."` of the original exception, not
the bare message `"GEMINI_API_KEY missing."`. -/
theorem missing_key_detail_is_rewrapped (x : Externals) (req : AnalyzeRequest)
    (hk : pyTruthy x.gemini_key = false) :
    (analyze x req).1 = .error ⟨500, PyExn.toStr (.http 500 "GEMINI_API_KEY missing.")⟩ ∧
    PyExn.toStr (.http 500 "GEMINI_API_KEY missing.") = "500: GEMINI_API_KEY missing." ∧
    PyExn.toStr (.http 500 "GEMINI_API_KEY missing.") ≠ "GEMINI_API_KEY missing." := by
  refine ⟨?_, by decide, by decide⟩
  rw [analyze_missing_key x req hk]
  rfl

theorem missing_key_detail_is_rewrapped_witness :
    (analyze xC10 reqS).1 = .error ⟨500, PyExn.toStr (.http 500 "GEMINI_API_KEY missing.")⟩ ∧
    PyExn.toStr (.http 500 "GEMINI_API_KEY missing.") = "500: GEMINI_API_KEY missing." ∧
    PyExn.toStr (.http 500 "GEMINI_API_KEY missing.") ≠ "GEMINI_API_KEY missing." :=
  missing_key_detail_is_rewrapped xC10 reqS rfl

end FridayGeo
